import Mathlib

set_option linter.unusedVariables false

/-!
Shallow embedding of the FastAPI MCP server (src/main.py): the JSON data
model, the tool executor (`call_tool`), the protocol dispatcher
(`handle_request`), the WebSocket session loop, the stateless HTTP tool
route, and the connection manager.  Python runtime machinery that the
source relies on (the `re` module, `random.randint`, `hashlib`, the
filesystem, `httpx`, float formatting and float powers) is modelled by an
explicit `Effects` environment or by small executable models, each
documented at its definition.
-/

/-- Python numbers as they occur in decoded JSON: `int` or `float`.
Floats are modelled as exact rationals; every float literal used by a
claim (0.5, 1.5, 2.5) is exactly representable as a binary float, so the
comparisons and truncations the source performs agree with the rational
model on those values. -/
inductive PyNum where
  | int (i : Int)
  | float (q : Rat)
deriving DecidableEq

/-- JSON values, as produced by `json.loads` and passed around as Python
objects (`None`, `bool`, numbers, `str`, `list`, `dict`). -/
inductive Json where
  | null
  | bool (b : Bool)
  | num (n : PyNum)
  | str (s : String)
  | arr (elems : List Json)
  | obj (fields : List (String × Json))

/-- Numeric value of a Python object when it participates in arithmetic or
numeric comparison: numbers are themselves, `bool` counts as 0/1 (Python
`bool` is an `int` subclass); everything else is not a number. -/
def asNumB : Json → Option PyNum
  | Json.num n => some n
  | Json.bool b => some (PyNum.int (if b then 1 else 0))
  | _ => none

/-- Rational value of a Python number (ints embed exactly; floats are the
rational model).  `mkRat i 1` is the integer `i` as a rational, written in
a kernel-evaluable form. -/
def PyNum.toRat : PyNum → Rat
  | PyNum.int i => mkRat i 1
  | PyNum.float q => q

/-- Python type name of a JSON-decoded value, as it appears inside
`TypeError` / `AttributeError` messages. -/
def pyTypeName : Json → String
  | Json.null => "NoneType"
  | Json.bool _ => "bool"
  | Json.num (PyNum.int _) => "int"
  | Json.num (PyNum.float _) => "float"
  | Json.str _ => "str"
  | Json.arr _ => "list"
  | Json.obj _ => "dict"

/-!  A small regular-expression engine: the model of Python's `re` module
for the one pattern the source compiles (the `validate_url` pattern).
Matching is by Brzozowski derivatives; for this pattern (greedy operators,
no capture-dependent behaviour, no lookaround) the boolean outcome of
Python's backtracking `match` coincides with language membership, which is
what the derivative matcher decides. -/

/-- Regular expressions over characters: empty language, empty string,
character class (a predicate), concatenation, alternation, Kleene star and
counted repetition `rep r lo hi` (between `lo` and `hi` copies of `r`). -/
inductive RE where
  | emp
  | eps
  | cls (p : Char → Bool)
  | seq (r1 r2 : RE)
  | alt (r1 r2 : RE)
  | star (r : RE)
  | rep (r : RE) (lo hi : Nat)

/-- Does the regex accept the empty string? -/
def RE.nullable : RE → Bool
  | RE.emp => false
  | RE.eps => true
  | RE.cls _ => false
  | RE.seq r1 r2 => r1.nullable && r2.nullable
  | RE.alt r1 r2 => r1.nullable || r2.nullable
  | RE.star _ => true
  | RE.rep r lo _ => lo == 0 || r.nullable

/-- Brzozowski derivative of a regex with respect to one character. -/
def RE.deriv : RE → Char → RE
  | RE.emp, _ => RE.emp
  | RE.eps, _ => RE.emp
  | RE.cls p, c => if p c then RE.eps else RE.emp
  | RE.seq r1 r2, c =>
      if r1.nullable then RE.alt (RE.seq (r1.deriv c) r2) (r2.deriv c)
      else RE.seq (r1.deriv c) r2
  | RE.alt r1 r2, c => RE.alt (r1.deriv c) (r2.deriv c)
  | RE.star r, c => RE.seq (r.deriv c) (RE.star r)
  | RE.rep r lo hi, c =>
      if hi == 0 then RE.emp
      else RE.seq (r.deriv c) (RE.rep r (lo - 1) (hi - 1))

/-- Does the regex match the whole character list? -/
def RE.matches (r : RE) (cs : List Char) : Bool :=
  (cs.foldl RE.deriv r).nullable

/-- One or more copies. -/
def RE.plus (r : RE) : RE := RE.seq r (RE.star r)

/-- Zero or one copy. -/
def RE.opt (r : RE) : RE := RE.alt r RE.eps

/-- Literal character that is matched exactly (used for the pattern's
non-letter literals, which `re.IGNORECASE` does not affect). -/
def RE.chr (c : Char) : RE := RE.cls (fun x => x == c)

/-- Literal letter under `re.IGNORECASE`: matches either case.  The
argument is given in lowercase. -/
def RE.ichr (c : Char) : RE := RE.cls (fun x => x.toLower == c)

/-- Characters of `[A-Z0-9]` under `re.IGNORECASE` (ASCII model). -/
def urlAlnum (c : Char) : Bool := c.isAlpha || c.isDigit

/-- Characters of `[A-Z0-9-]` under `re.IGNORECASE` (ASCII model). -/
def urlAlnumDash (c : Char) : Bool := c.isAlpha || c.isDigit || c == '-'

/-- Characters of `[A-Z]` under `re.IGNORECASE` (ASCII model). -/
def urlAlpha (c : Char) : Bool := c.isAlpha

/-- Characters of `\d` (ASCII model). -/
def urlDigit (c : Char) : Bool := c.isDigit

/-- Python `\s` whitespace characters (ASCII model): space, tab, newline,
carriage return, vertical tab, form feed. -/
def pyWhitespace (c : Char) : Bool :=
  c == ' ' || c == '\t' || c == '\n' || c == '\r' ||
  c == Char.ofNat 11 || c == Char.ofNat 12

/-- Characters of `\S`. -/
def urlNonSpace (c : Char) : Bool := !pyWhitespace c

/-- Sequence of several regexes. -/
def RE.seqs : List RE → RE
  | [] => RE.eps
  | [r] => r
  | r :: rs => RE.seq r (RE.seqs rs)

/-- The scheme part `https?://` of the source's URL pattern. -/
def urlScheme : RE :=
  RE.seqs [RE.ichr 'h', RE.ichr 't', RE.ichr 't', RE.ichr 'p',
           RE.opt (RE.ichr 's'), RE.chr ':', RE.chr '/', RE.chr '/']

/-- One domain label `[A-Z0-9](?:[A-Z0-9-]{0,61}[A-Z0-9])?`. -/
def urlLabel : RE :=
  RE.seq (RE.cls urlAlnum)
    (RE.opt (RE.seq (RE.rep (RE.cls urlAlnumDash) 0 61) (RE.cls urlAlnum)))

/-- The domain alternative `(?:label\.)+[A-Z]{2,6}\.?`. -/
def urlDomain : RE :=
  RE.seqs [RE.plus (RE.seq urlLabel (RE.chr '.')),
           RE.rep (RE.cls urlAlpha) 2 6,
           RE.opt (RE.chr '.')]

/-- The `localhost` alternative (case-insensitive). -/
def urlLocalhost : RE :=
  RE.seqs [RE.ichr 'l', RE.ichr 'o', RE.ichr 'c', RE.ichr 'a',
           RE.ichr 'l', RE.ichr 'h', RE.ichr 'o', RE.ichr 's', RE.ichr 't']

/-- One octet `\d{1,3}` of the IP alternative. -/
def urlOctet : RE := RE.rep (RE.cls urlDigit) 1 3

/-- The IP alternative `\d{1,3}\.\d{1,3}\.\d{1,3}\.\d{1,3}`. -/
def urlIp : RE :=
  RE.seqs [urlOctet, RE.chr '.', urlOctet, RE.chr '.',
           urlOctet, RE.chr '.', urlOctet]

/-- The optional port `(?::\d+)?`. -/
def urlPort : RE := RE.opt (RE.seq (RE.chr ':') (RE.plus (RE.cls urlDigit)))

/-- The tail `(?:/?|[/?]\S+)`: nothing, a single slash, or a slash or
question mark followed by one or more non-space characters. -/
def urlTail : RE :=
  RE.alt (RE.opt (RE.chr '/'))
    (RE.seq (RE.cls (fun c => c == '/' || c == '?')) (RE.plus (RE.cls urlNonSpace)))

/-- The whole URL pattern compiled by `validate_url` (anchors handled by
whole-string matching and by `pyReMatchBool`). -/
def urlRE : RE :=
  RE.seqs [urlScheme, RE.alt urlDomain (RE.alt urlLocalhost urlIp), urlPort, urlTail]

/-- Model of `bool(pattern.match(s))` for an anchored pattern ending in
`$`: Python's `$` matches at the end of the string or just before one
trailing newline, so the pattern must match the whole string or the whole
string minus a single final newline. -/
def pyReMatchBool (r : RE) (s : String) : Bool :=
  let cs := s.data
  r.matches cs ||
    (match cs.getLast? with
     | some c => c == '\n' && r.matches cs.dropLast
     | none => false)

/-- The boolean computed by the `validate_url` tool for a string input. -/
def urlPatternMatch (s : String) : Bool := pyReMatchBool urlRE s

/-- Outcome of a filesystem read or directory listing in the environment:
success, a not-found failure (Python `FileNotFoundError`, which the source
maps to a distinct message), or any other failure with `str(e)` text. -/
inductive IOResult (α : Type) where
  | ok (a : α)
  | notFound
  | err (msg : String)

/-- Result of an outbound HTTP request made through `httpx` (external
collaborator): status code, headers, body text and resolved URL. -/
structure NetResp where
  status_code : Int
  headers : List (String × String)
  content : String
  url : String

/-- The runtime environment the tools read: the entropy consumed by
`random.randint`, the clock, the uuid generator, the `hashlib` digests,
the filesystem, the network, CPython's float power and float formatting.
All are external collaborators of the source; modelling them as an
explicit record makes `call_tool` a pure function of the environment. -/
structure Effects where
  rand : Nat
  now : String
  uuid : String
  md5 : String → String
  sha256 : String → String
  readF : String → IOResult String
  writeF : String → String → Except String Unit
  listDir : String → IOResult (List String)
  net : String → String → Json → Except String NetResp
  fpow : Rat → Rat → Rat
  strFloat : Rat → String

/-- A concrete environment used to evaluate counterexamples and witnesses
(its entropy field is 0; the other fields are inert defaults). -/
def defaultEffects : Effects where
  rand := 0
  now := ""
  uuid := ""
  md5 := fun _ => ""
  sha256 := fun _ => ""
  readF := fun _ => IOResult.notFound
  writeF := fun _ _ => Except.error ""
  listDir := fun _ => IOResult.notFound
  net := fun _ _ _ => Except.error ""
  fpow := fun _ _ => 0
  strFloat := fun _ => ""

mutual

/-- Python `repr()` for the values this server produces, as used inside
`str()` of containers.  String quoting is simplified to bare single
quotes (no escape handling); adequate for every value the claims
evaluate. -/
def pyRepr (eff : Effects) : Json → String
  | Json.null => "None"
  | Json.bool true => "True"
  | Json.bool false => "False"
  | Json.num (PyNum.int i) => toString i
  | Json.num (PyNum.float q) => eff.strFloat q
  | Json.str s => "\x27" ++ s ++ "\x27"
  | Json.arr xs => "[" ++ pyReprList eff xs ++ "]"
  | Json.obj kvs => "\x7b" ++ pyReprFields eff kvs ++ "\x7d"

/-- Comma-separated `repr`s of list elements. -/
def pyReprList (eff : Effects) : List Json → String
  | [] => ""
  | [x] => pyRepr eff x
  | x :: xs => pyRepr eff x ++ ", " ++ pyReprList eff xs

/-- Comma-separated `'key': repr(value)` renderings of dict entries. -/
def pyReprFields (eff : Effects) : List (String × Json) → String
  | [] => ""
  | [(k, v)] => "\x27" ++ k ++ "\x27: " ++ pyRepr eff v
  | (k, v) :: kvs => "\x27" ++ k ++ "\x27: " ++ pyRepr eff v ++ ", " ++ pyReprFields eff kvs

end

/-- Python `str()` of a tool result (the stringification `str(result)` the
dispatcher performs): a string is itself; every other value renders as its
`repr`. -/
def pyStr (eff : Effects) : Json → String
  | Json.str s => s
  | j => pyRepr eff j

/-- Python `str.upper()` (ASCII model): uppercase each character. -/
def pyUpper (s : String) : String := String.mk (s.data.map Char.toUpper)

/-- Python `str.lower()` (ASCII model): lowercase each character. -/
def pyLower (s : String) : String := String.mk (s.data.map Char.toLower)

/-- Model of Python `arguments.get(key, default)` as each tool binding
performs it: on a dict, the stored value (which may be JSON `null`) or the
default when the key is absent; on any non-dict object, the
`AttributeError` the attribute access raises. -/
def pyGet (args : Json) (key : String) (dflt : Json) : Except String Json :=
  match args with
  | Json.obj kvs => Except.ok ((List.lookup key kvs).getD dflt)
  | other =>
      Except.error
        ("\x27" ++ pyTypeName other ++ "\x27 object has no attribute \x27get\x27")

/-- Python binary `+`: string and list concatenation, numeric addition
(int stays int, any float makes a float), `TypeError` otherwise. -/
def pyAdd (x y : Json) : Except String Json :=
  match x, y with
  | Json.str a, Json.str b => Except.ok (Json.str (a ++ b))
  | Json.arr a, Json.arr b => Except.ok (Json.arr (a ++ b))
  | _, _ =>
      match asNumB x, asNumB y with
      | some (PyNum.int a), some (PyNum.int b) => Except.ok (Json.num (PyNum.int (a + b)))
      | some a, some b => Except.ok (Json.num (PyNum.float (a.toRat + b.toRat)))
      | _, _ =>
          Except.error
            ("unsupported operand type(s) for +: \x27" ++ pyTypeName x ++
             "\x27 and \x27" ++ pyTypeName y ++ "\x27")

/-- Python binary `-`: numeric only. -/
def pySub (x y : Json) : Except String Json :=
  match asNumB x, asNumB y with
  | some (PyNum.int a), some (PyNum.int b) => Except.ok (Json.num (PyNum.int (a - b)))
  | some a, some b => Except.ok (Json.num (PyNum.float (a.toRat - b.toRat)))
  | _, _ =>
      Except.error
        ("unsupported operand type(s) for -: \x27" ++ pyTypeName x ++
         "\x27 and \x27" ++ pyTypeName y ++ "\x27")

/-- Integer value of a Python object for sequence replication (`int` and
`bool` qualify, floats do not). -/
def asIntLike : Json → Option Int
  | Json.num (PyNum.int i) => some i
  | Json.bool b => some (if b then 1 else 0)
  | _ => none

/-- Python binary `*`: numeric product, or sequence replication when one
operand is a string or list and the other an int, `TypeError` otherwise. -/
def pyMul (x y : Json) : Except String Json :=
  match x, y with
  | Json.str s, other =>
      match asIntLike other with
      | some n => Except.ok (Json.str (String.join (List.replicate n.toNat s)))
      | none =>
          Except.error
            ("can\x27t multiply sequence by non-int of type \x27" ++ pyTypeName other ++ "\x27")
  | other, Json.str s =>
      match asIntLike other with
      | some n => Except.ok (Json.str (String.join (List.replicate n.toNat s)))
      | none =>
          Except.error
            ("can\x27t multiply sequence by non-int of type \x27" ++ pyTypeName other ++ "\x27")
  | _, _ =>
      match asNumB x, asNumB y with
      | some (PyNum.int a), some (PyNum.int b) => Except.ok (Json.num (PyNum.int (a * b)))
      | some a, some b => Except.ok (Json.num (PyNum.float (a.toRat * b.toRat)))
      | _, _ =>
          Except.error
            ("unsupported operand type(s) for *: \x27" ++ pyTypeName x ++
             "\x27 and \x27" ++ pyTypeName y ++ "\x27")

/-- Python `b == 0` as the `divide` guard evaluates it: true exactly for
numeric (or boolean) values equal to zero; false for every other object
(`==` against an int never raises). -/
def pyEqZero (j : Json) : Bool :=
  match asNumB j with
  | some n => n.toRat == 0
  | none => false

/-- Python true division `a / b` (reached only when `b == 0` is false):
numeric operands give a float, anything else raises `TypeError`. -/
def pyDiv (x y : Json) : Except String Json :=
  match asNumB x, asNumB y with
  | some a, some b => Except.ok (Json.num (PyNum.float (a.toRat / b.toRat)))
  | _, _ =>
      Except.error
        ("unsupported operand type(s) for /: \x27" ++ pyTypeName x ++
         "\x27 and \x27" ++ pyTypeName y ++ "\x27")

/-- Python comparison `x > y`: numeric (and boolean) operands compare by
value, two strings compare lexicographically, anything else raises
`TypeError`. -/
def pyCmpGt (x y : Json) : Except String Bool :=
  match x, y with
  | Json.str a, Json.str b => Except.ok (decide (b < a))
  | _, _ =>
      match asNumB x, asNumB y with
      | some a, some b => Except.ok (decide (b.toRat < a.toRat))
      | _, _ =>
          Except.error
            ("\x27>\x27 not supported between instances of \x27" ++ pyTypeName x ++
             "\x27 and \x27" ++ pyTypeName y ++ "\x27")

/-- Python comparison `x < y` (same shape as `pyCmpGt`). -/
def pyCmpLt (x y : Json) : Except String Bool :=
  match x, y with
  | Json.str a, Json.str b => Except.ok (decide (a < b))
  | _, _ =>
      match asNumB x, asNumB y with
      | some a, some b => Except.ok (decide (a.toRat < b.toRat))
      | _, _ =>
          Except.error
            ("\x27<\x27 not supported between instances of \x27" ++ pyTypeName x ++
             "\x27 and \x27" ++ pyTypeName y ++ "\x27")

/-- Truncation toward zero of a rational: the value of Python `int()` on
a float. -/
def pyTruncRat (q : Rat) : Int := if q < 0 then ⌈q⌉ else ⌊q⌋

/-- Decimal string parse for Python `int(str)`: optional surrounding
whitespace, optional sign, one or more digits (digit-group underscores are
not modelled; no claim evaluates them). -/
def pyParseInt (s : String) : Except String Int :=
  let t := s.trim
  let core :=
    match t.data with
    | '-' :: ds => (true, ds)
    | '+' :: ds => (false, ds)
    | ds => (false, ds)
  if core.2 ≠ [] && core.2.all Char.isDigit then
    let n := core.2.foldl (fun acc c => acc * 10 + (c.toNat - '0'.toNat)) 0
    Except.ok (if core.1 then -(n : Int) else (n : Int))
  else
    Except.error ("invalid literal for int() with base 10: \x27" ++ s ++ "\x27")

/-- Python `int()` conversion: ints are themselves, floats truncate toward
zero, bools give 0/1, strings parse as decimal, everything else raises
`TypeError`. -/
def pyToInt : Json → Except String Int
  | Json.num (PyNum.int i) => Except.ok i
  | Json.num (PyNum.float q) => Except.ok (pyTruncRat q)
  | Json.bool b => Except.ok (if b then 1 else 0)
  | Json.str s => pyParseInt s
  | other =>
      Except.error
        ("int() argument must be a string, a bytes-like object or a real number, not \x27" ++
         pyTypeName other ++ "\x27")

/-- Model of `random.randint(a, b)` (external library): raises on an empty
range, otherwise returns a value in the inclusive range `[a, b]`; the
entropy `r` comes from the environment and is reduced modulo the range
size, which realises exactly the library's documented guarantee
`a ≤ result ≤ b`. -/
def randint (a b : Int) (r : Nat) : Except String Int :=
  if b < a then Except.error "empty range in randint()"
  else Except.ok (a + (r : Int) % (b - a + 1))

/-- Python integer-base power as `**` computes it: with an int base and a
non-negative int exponent the result is an int; an int base with a
negative int exponent gives a float (exact over the rational model) and
raises on base zero; any float operand goes through the environment's
float-power oracle `fpow`. -/
def pyPow (eff : Effects) (x y : Json) : Except String Json :=
  match asNumB x, asNumB y with
  | some (PyNum.int a), some (PyNum.int b) =>
      if 0 ≤ b then Except.ok (Json.num (PyNum.int (a ^ b.toNat)))
      else if a = 0 then Except.error "0.0 cannot be raised to a negative power"
      else Except.ok (Json.num (PyNum.float ((1 : Rat) / (a : Rat) ^ (-b).toNat)))
  | some a, some b => Except.ok (Json.num (PyNum.float (eff.fpow a.toRat b.toRat)))
  | _, _ =>
      Except.error
        ("unsupported operand type(s) for ** or pow(): \x27" ++ pyTypeName x ++
         "\x27 and \x27" ++ pyTypeName y ++ "\x27")


/-- Descriptor schema property `{"type": t, "description": d}`. -/
def propEntry (t d : String) : Json :=
  Json.obj [("type", Json.str t), ("description", Json.str d)]

/-- Input schema `{"type": "object", "properties": props, "required": req}`. -/
def schemaReq (props : List (String × Json)) (req : List String) : Json :=
  Json.obj [("type", Json.str "object"), ("properties", Json.obj props),
            ("required", Json.arr (req.map Json.str))]

/-- Input schema with no `required` list (the `get_time` / `generate_uuid`
shape). -/
def schemaNoReq (props : List (String × Json)) : Json :=
  Json.obj [("type", Json.str "object"), ("properties", Json.obj props)]

/-- Descriptor `{"name": n, "description": d, "inputSchema": schema}`. -/
def toolDesc (n d : String) (schema : Json) : Json :=
  Json.obj [("name", Json.str n), ("description", Json.str d), ("inputSchema", schema)]

/-- The tool registry `self.tools` of `MCPServer.__init__`, in insertion
order, as the list of descriptor values (`list(self.tools.values())`). -/
def toolDescriptors : List Json :=
  [ toolDesc "echo" "Echo back the input text"
      (schemaReq [("text", propEntry "string" "Text to echo back")] ["text"]),
    toolDesc "get_time" "Get current server time" (schemaNoReq []),
    toolDesc "add" "Add two numbers together"
      (schemaReq [("a", propEntry "number" "First number"),
                  ("b", propEntry "number" "Second number")] ["a", "b"]),
    toolDesc "subtract" "Subtract second number from first number"
      (schemaReq [("a", propEntry "number" "First number"),
                  ("b", propEntry "number" "Second number")] ["a", "b"]),
    toolDesc "multiply" "Multiply two numbers"
      (schemaReq [("a", propEntry "number" "First number"),
                  ("b", propEntry "number" "Second number")] ["a", "b"]),
    toolDesc "divide" "Divide first number by second number"
      (schemaReq [("a", propEntry "number" "First number"),
                  ("b", propEntry "number" "Second number")] ["a", "b"]),
    toolDesc "power" "Raise first number to the power of second number"
      (schemaReq [("base", propEntry "number" "Base number"),
                  ("exponent", propEntry "number" "Exponent")] ["base", "exponent"]),
    toolDesc "sqrt" "Calculate square root of a number"
      (schemaReq [("number", propEntry "number" "Number to calculate square root of")]
        ["number"]),
    toolDesc "uppercase" "Convert text to uppercase"
      (schemaReq [("text", propEntry "string" "Text to convert to uppercase")] ["text"]),
    toolDesc "lowercase" "Convert text to lowercase"
      (schemaReq [("text", propEntry "string" "Text to convert to lowercase")] ["text"]),
    toolDesc "reverse_string" "Reverse a string"
      (schemaReq [("text", propEntry "string" "Text to reverse")] ["text"]),
    toolDesc "string_length" "Get the length of a string"
      (schemaReq [("text", propEntry "string" "Text to measure")] ["text"]),
    toolDesc "read_file" "Read contents of a file"
      (schemaReq [("filepath", propEntry "string" "Path to the file to read")] ["filepath"]),
    toolDesc "write_file" "Write content to a file"
      (schemaReq [("filepath", propEntry "string" "Path to the file to write"),
                  ("content", propEntry "string" "Content to write to the file")]
        ["filepath", "content"]),
    toolDesc "list_directory" "List files and directories in a path"
      (schemaReq [("path", propEntry "string" "Directory path to list")] ["path"]),
    toolDesc "random_number" "Generate a random number between min and max"
      (schemaReq [("min", propEntry "number" "Minimum value"),
                  ("max", propEntry "number" "Maximum value")] ["min", "max"]),
    toolDesc "generate_uuid" "Generate a random UUID" (schemaNoReq []),
    toolDesc "hash_md5" "Generate MD5 hash of input text"
      (schemaReq [("text", propEntry "string" "Text to hash")] ["text"]),
    toolDesc "hash_sha256" "Generate SHA256 hash of input text"
      (schemaReq [("text", propEntry "string" "Text to hash")] ["text"]),
    toolDesc "validate_url" "Validate if a string is a valid URL"
      (schemaReq [("url", propEntry "string" "URL to validate")] ["url"]),
    toolDesc "make_request" "Make an HTTP request to a URL"
      (schemaReq
        [("url", propEntry "string" "URL to request"),
         ("method",
          Json.obj [("type", Json.str "string"),
                    ("description", Json.str "HTTP method (GET, POST, etc.)"),
                    ("default", Json.str "GET")]),
         ("headers",
          Json.obj [("type", Json.str "object"),
                    ("description", Json.str "HTTP headers"),
                    ("default", Json.obj [])])]
        ["url"]) ]

/-- The keys of `self.tools`, in insertion order: the names for which
`tool_name in self.tools` is true. -/
def toolNames : List String :=
  ["echo", "get_time", "add", "subtract", "multiply", "divide", "power", "sqrt",
   "uppercase", "lowercase", "reverse_string", "string_length",
   "read_file", "write_file", "list_directory",
   "random_number", "generate_uuid", "hash_md5", "hash_sha256",
   "validate_url", "make_request"]

/-- `MCPServer.call_tool`: one branch per tool, translated from the
source's `if`/`elif` chain.  A returned `Except.error m` is a raised
Python exception whose `str()` text is `m`; it propagates to the caller
exactly as the exception does. -/
def callTool (eff : Effects) (tool_name : String) (arguments : Json) : Except String Json :=
  if tool_name = "echo" then
    pyGet arguments "text" (Json.str "")
  else if tool_name = "get_time" then
    Except.ok (Json.str eff.now)
  else if tool_name = "add" then do
    let a ← pyGet arguments "a" (Json.num (PyNum.int 0))
    let b ← pyGet arguments "b" (Json.num (PyNum.int 0))
    pyAdd a b
  else if tool_name = "subtract" then do
    let a ← pyGet arguments "a" (Json.num (PyNum.int 0))
    let b ← pyGet arguments "b" (Json.num (PyNum.int 0))
    pySub a b
  else if tool_name = "multiply" then do
    let a ← pyGet arguments "a" (Json.num (PyNum.int 0))
    let b ← pyGet arguments "b" (Json.num (PyNum.int 0))
    pyMul a b
  else if tool_name = "divide" then do
    let a ← pyGet arguments "a" (Json.num (PyNum.int 0))
    let b ← pyGet arguments "b" (Json.num (PyNum.int 0))
    if pyEqZero b then Except.error "Division by zero is not allowed"
    else pyDiv a b
  else if tool_name = "power" then do
    let base ← pyGet arguments "base" (Json.num (PyNum.int 0))
    let exponent ← pyGet arguments "exponent" (Json.num (PyNum.int 0))
    pyPow eff base exponent
  else if tool_name = "sqrt" then do
    let number ← pyGet arguments "number" (Json.num (PyNum.int 0))
    let neg ← pyCmpLt number (Json.num (PyNum.int 0))
    if neg then Except.error "Cannot calculate square root of negative number"
    else pyPow eff number (Json.num (PyNum.float (mkRat 1 2)))
  else if tool_name = "uppercase" then do
    let text ← pyGet arguments "text" (Json.str "")
    match text with
    | Json.str s => Except.ok (Json.str (pyUpper s))
    | other =>
        Except.error
          ("\x27" ++ pyTypeName other ++ "\x27 object has no attribute \x27upper\x27")
  else if tool_name = "lowercase" then do
    let text ← pyGet arguments "text" (Json.str "")
    match text with
    | Json.str s => Except.ok (Json.str (pyLower s))
    | other =>
        Except.error
          ("\x27" ++ pyTypeName other ++ "\x27 object has no attribute \x27lower\x27")
  else if tool_name = "reverse_string" then do
    let text ← pyGet arguments "text" (Json.str "")
    match text with
    | Json.str s => Except.ok (Json.str (String.mk s.data.reverse))
    | other =>
        Except.error ("\x27" ++ pyTypeName other ++ "\x27 object is not reversible")
  else if tool_name = "string_length" then do
    let text ← pyGet arguments "text" (Json.str "")
    match text with
    | Json.str s => Except.ok (Json.num (PyNum.int (s.length : Int)))
    | other =>
        Except.error ("object of type \x27" ++ pyTypeName other ++ "\x27 has no len()")
  else if tool_name = "read_file" then do
    let filepath ← pyGet arguments "filepath" (Json.str "")
    match filepath with
    | Json.str p =>
        match eff.readF p with
        | IOResult.ok c => Except.ok (Json.str c)
        | IOResult.notFound => Except.error ("File not found: " ++ p)
        | IOResult.err e => Except.error ("Error reading file: " ++ e)
    | other =>
        Except.error
          ("Error reading file: expected str, bytes or os.PathLike object, not " ++
           pyTypeName other)
  else if tool_name = "write_file" then do
    let filepath ← pyGet arguments "filepath" (Json.str "")
    let content ← pyGet arguments "content" (Json.str "")
    match filepath, content with
    | Json.str p, Json.str c =>
        match eff.writeF p c with
        | Except.ok _ =>
            Except.ok
              (Json.str ("Successfully wrote " ++ toString c.length ++
                         " characters to " ++ p))
        | Except.error e => Except.error ("Error writing file: " ++ e)
    | other, _ => Except.error ("Error writing file: " ++ pyTypeName other)
  else if tool_name = "list_directory" then do
    let path ← pyGet arguments "path" (Json.str ".")
    match path with
    | Json.str p =>
        match eff.listDir p with
        | IOResult.ok items =>
            Except.ok
              (Json.obj [("path", Json.str p),
                         ("items", Json.arr (items.map Json.str)),
                         ("count", Json.num (PyNum.int (items.length : Int)))])
        | IOResult.notFound => Except.error ("Directory not found: " ++ p)
        | IOResult.err e => Except.error ("Error listing directory: " ++ e)
    | other => Except.error ("Error listing directory: " ++ pyTypeName other)
  else if tool_name = "random_number" then do
    let min_val ← pyGet arguments "min" (Json.num (PyNum.int 0))
    let max_val ← pyGet arguments "max" (Json.num (PyNum.int 100))
    let gt ← pyCmpGt min_val max_val
    if gt then Except.error "Minimum value cannot be greater than maximum value"
    else do
      let a ← pyToInt min_val
      let b ← pyToInt max_val
      let n ← randint a b eff.rand
      Except.ok (Json.num (PyNum.int n))
  else if tool_name = "generate_uuid" then
    Except.ok (Json.str eff.uuid)
  else if tool_name = "hash_md5" then do
    let text ← pyGet arguments "text" (Json.str "")
    match text with
    | Json.str s => Except.ok (Json.str (eff.md5 s))
    | other =>
        Except.error
          ("\x27" ++ pyTypeName other ++ "\x27 object has no attribute \x27encode\x27")
  else if tool_name = "hash_sha256" then do
    let text ← pyGet arguments "text" (Json.str "")
    match text with
    | Json.str s => Except.ok (Json.str (eff.sha256 s))
    | other =>
        Except.error
          ("\x27" ++ pyTypeName other ++ "\x27 object has no attribute \x27encode\x27")
  else if tool_name = "validate_url" then do
    let url ← pyGet arguments "url" (Json.str "")
    match url with
    | Json.str s => Except.ok (Json.bool (urlPatternMatch s))
    | _ => Except.error "expected string or bytes-like object"
  else if tool_name = "make_request" then do
    let url ← pyGet arguments "url" (Json.str "")
    let methodArg ← pyGet arguments "method" (Json.str "GET")
    let headers ← pyGet arguments "headers" (Json.obj [])
    match methodArg with
    | Json.str m =>
        match url with
        | Json.str u =>
            match eff.net (pyUpper m) u headers with
            | Except.ok resp =>
                Except.ok
                  (Json.obj
                    [("status_code", Json.num (PyNum.int resp.status_code)),
                     ("headers",
                      Json.obj (resp.headers.map (fun kv => (kv.1, Json.str kv.2)))),
                     ("content", Json.str resp.content),
                     ("url", Json.str resp.url)])
            | Except.error e => Except.error ("Error making request: " ++ e)
        | other => Except.error ("Error making request: " ++ pyTypeName other)
    | other =>
        Except.error
          ("\x27" ++ pyTypeName other ++ "\x27 object has no attribute \x27upper\x27")
  else
    Except.error ("Unknown tool: " ++ tool_name)

/-- The pydantic `MCPRequest` model: `jsonrpc` defaults to "2.0", `id` and
`method` are required strings, `params` defaults to the empty dict. -/
structure MCPRequest where
  jsonrpc : String := "2.0"
  id : String
  method : String
  params : List (String × Json) := []

/-- The error dict `{"code": ..., "message": ...}` every error branch of
the source constructs. -/
structure ErrObj where
  code : Int
  message : String

/-- The pydantic `MCPResponse` model: `result` defaults to the empty dict
and `error` to `None`; both fields always exist on the model and are both
emitted by `model_dump_json`. -/
structure MCPResponse where
  jsonrpc : String := "2.0"
  id : String
  result : List (String × Json) := []
  error : Option ErrObj := none

/-- An error response as the source builds it: `result` left at its `{}`
default, `error` set to a code/message dict. -/
def errResp (id : String) (code : Int) (msg : String) : MCPResponse :=
  { id := id, result := [], error := some { code := code, message := msg } }

/-- The `model_dump_json` serialization of a response: all four fields in
declaration order, `error` rendered as JSON `null` when `None`. -/
def serializeResponse (r : MCPResponse) : Json :=
  Json.obj
    [("jsonrpc", Json.str r.jsonrpc),
     ("id", Json.str r.id),
     ("result", Json.obj r.result),
     ("error",
      match r.error with
      | none => Json.null
      | some e =>
          Json.obj [("code", Json.num (PyNum.int e.code)), ("message", Json.str e.message)])]

/-- Validation `MCPRequest(**request_data)`: the payload must be a mapping;
`id` and `method` must be present strings; `jsonrpc`, when present, must be
a string; `params`, when present, must be a mapping.  A pydantic
`ValidationError` (or the `TypeError` of unpacking a non-mapping) is
returned as `Except.error` with its `str()` text. -/
def decodeMCPRequest (j : Json) : Except String MCPRequest :=
  match j with
  | Json.obj kvs => do
      let jsonrpc ←
        match List.lookup "jsonrpc" kvs with
        | none => Except.ok "2.0"
        | some (Json.str s) => Except.ok s
        | some _ => Except.error "validation error for MCPRequest: jsonrpc: Input should be a valid string"
      let id ←
        match List.lookup "id" kvs with
        | some (Json.str s) => Except.ok s
        | some _ => Except.error "validation error for MCPRequest: id: Input should be a valid string"
        | none => Except.error "validation error for MCPRequest: id: Field required"
      let method ←
        match List.lookup "method" kvs with
        | some (Json.str s) => Except.ok s
        | some _ => Except.error "validation error for MCPRequest: method: Input should be a valid string"
        | none => Except.error "validation error for MCPRequest: method: Field required"
      let params ←
        match List.lookup "params" kvs with
        | none => Except.ok ([] : List (String × Json))
        | some (Json.obj p) => Except.ok p
        | some _ => Except.error "validation error for MCPRequest: params: Input should be a valid dictionary"
      Except.ok { jsonrpc := jsonrpc, id := id, method := method, params := params }
  | _ => Except.error "argument of type MCPRequest initializer must be a mapping"

/-- Membership test `tool_name in self.tools`: a Python dict membership
hashes its key, so a list- or dict-valued name raises `TypeError`; a
string is looked up among the keys; every other hashable value (numbers,
`None`, booleans) is simply not a key. -/
def pyDictContainsKey (j : Json) (keys : List String) : Except String Bool :=
  match j with
  | Json.arr _ => Except.error "unhashable type: \x27list\x27"
  | Json.obj _ => Except.error "unhashable type: \x27dict\x27"
  | Json.str s => Except.ok (keys.contains s)
  | _ => Except.ok false

/-- The `content` envelope the dispatcher wraps a stringified tool result
in. -/
def contentEnvelope (txt : String) : List (String × Json) :=
  [("content", Json.arr [Json.obj [("type", Json.str "text"), ("text", Json.str txt)]])]

/-- The `result` dict of the `initialize` handler. -/
def initResultFields : List (String × Json) :=
  [("protocolVersion", Json.str "2024-11-05"),
   ("capabilities", Json.obj [("tools", Json.obj [])]),
   ("serverInfo",
    Json.obj [("name", Json.str "fastapi-mcp-server"), ("version", Json.str "1.0.0")])]

/-- Body of `MCPServer.handle_request`'s `try` block; `Except.error` is an
exception escaping to the surrounding `except` clause. -/
def handleRequestE (eff : Effects) (req : MCPRequest) : Except String MCPResponse :=
  if req.method = "initialize" then
    Except.ok { id := req.id, result := initResultFields, error := none }
  else if req.method = "tools/list" then
    Except.ok { id := req.id, result := [("tools", Json.arr toolDescriptors)], error := none }
  else if req.method = "tools/call" then
    let tool_name := (List.lookup "name" req.params).getD Json.null
    let arguments := (List.lookup "arguments" req.params).getD (Json.obj [])
    match pyDictContainsKey tool_name toolNames with
    | Except.error e => Except.error e
    | Except.ok isIn =>
        match tool_name, isIn with
        | Json.str s, true =>
            match callTool eff s arguments with
            | Except.error e => Except.error e
            | Except.ok r =>
                Except.ok { id := req.id, result := contentEnvelope (pyStr eff r), error := none }
        | _, _ =>
            Except.ok
              (errResp req.id (-32601) ("Tool \x27" ++ pyStr eff tool_name ++ "\x27 not found"))
  else
    Except.ok (errResp req.id (-32601) ("Method \x27" ++ req.method ++ "\x27 not found"))

/-- `MCPServer.handle_request`: the `try` body with its `except` clause,
which converts any escaping exception into a `-32603` response carrying
the exception text. -/
def handleRequest (eff : Effects) (req : MCPRequest) : MCPResponse :=
  match handleRequestE eff req with
  | Except.ok r => r
  | Except.error e => errResp req.id (-32603) ("Internal error: " ++ e)

/-- The HTTP route `POST /tools/call`: looks the name up, executes the
tool and wraps the raw result in `{"result": ...}`, or answers
`{"error": ...}` for an unknown name.  The route installs no exception
handler, so a raised tool fault leaves the route as `Except.error` (the
framework then produces a 500, not a JSON error envelope). -/
def httpCallTool (eff : Effects) (body : List (String × Json)) : Except String Json :=
  let tool_name := (List.lookup "name" body).getD Json.null
  let arguments := (List.lookup "arguments" body).getD (Json.obj [])
  match pyDictContainsKey tool_name toolNames with
  | Except.error e => Except.error e
  | Except.ok isIn =>
      match tool_name, isIn with
      | Json.str s, true =>
          match callTool eff s arguments with
          | Except.error e => Except.error e
          | Except.ok r => Except.ok (Json.obj [("result", r)])
      | _, _ =>
          Except.ok
            (Json.obj
              [("error", Json.str ("Tool \x27" ++ pyStr eff tool_name ++ "\x27 not found"))])

/-- One inbound WebSocket text frame, after the `json.loads` attempt:
either syntactically invalid JSON (a `json.JSONDecodeError`) or a decoded
JSON value. -/
inductive Frame where
  | invalid (s : String)
  | decoded (j : Json)

/-- The per-frame body of the `websocket_endpoint` receive loop: parse
errors answer `-32700` with id "unknown"; any other exception while
decoding (a pydantic `ValidationError` or unpacking `TypeError`) answers
`-32603` with id "unknown"; a decoded request is dispatched. -/
def processFrame (eff : Effects) : Frame → MCPResponse
  | Frame.invalid _ => errResp "unknown" (-32700) "Parse error"
  | Frame.decoded j =>
      match decodeMCPRequest j with
      | Except.error e => errResp "unknown" (-32603) ("Internal error: " ++ e)
      | Except.ok req => handleRequest eff req

/-- The receive loop of one connection session over the frames received
before the transport disconnect: every frame produces exactly one
response and the loop continues regardless of per-frame failures (no
handler closes the channel). -/
def wsSession (eff : Effects) (frames : List Frame) : List MCPResponse :=
  frames.map (processFrame eff)

/-- `ConnectionManager.connect`: accept and append to the registry. -/
def cmConnect (l : List Nat) (ws : Nat) : List Nat := l ++ [ws]

/-- Python `list.remove`: removes the first occurrence or raises
`ValueError` when the element is absent. -/
def pyListRemove (l : List Nat) (x : Nat) : Except String (List Nat) :=
  if x ∈ l then Except.ok (l.erase x) else Except.error "list.remove(x): x not in list"

/-- `ConnectionManager.disconnect`: membership-guarded removal — the
`remove` call is only made when the websocket is registered, so the
method never raises. -/
def cmDisconnect (l : List Nat) (ws : Nat) : Except String (List Nat) :=
  if ws ∈ l then pyListRemove l ws else Except.ok l

/-- One connection-lifecycle event. -/
inductive ConnOp where
  | conn (ws : Nat)
  | disc (ws : Nat)

/-- Run a sequence of lifecycle events against the registry (the guarded
`cmDisconnect` never raises, so the fallback branch is inert). -/
def runConnOps (ops : List ConnOp) (l : List Nat) : List Nat :=
  match ops with
  | [] => l
  | ConnOp.conn ws :: rest => runConnOps rest (cmConnect l ws)
  | ConnOp.disc ws :: rest =>
      runConnOps rest
        (match cmDisconnect l ws with
         | Except.ok l2 => l2
         | Except.error _ => l)

/-- The `/health` route's payload: a status flag and the registry size. -/
def healthCheck (l : List Nat) : Json :=
  Json.obj
    [("status", Json.str "healthy"),
     ("active_connections", Json.num (PyNum.int (l.length : Int)))]

/-- Python `int()` of a number: an int is itself, a float truncates toward
zero. -/
def pyTruncNum : PyNum → Int
  | PyNum.int i => i
  | PyNum.float q => pyTruncRat q

/-- Is an `Except` a success? -/
def isOkE {α : Type} (e : Except String α) : Bool :=
  match e with
  | Except.ok _ => true
  | Except.error _ => false

/-- Number of members of a top-level JSON object (0 for non-objects);
used to separate serialized objects with different member counts. -/
def jsonTopLen : Json → Nat
  | Json.obj l => l.length
  | _ => 0

/-- The end-to-end `add` scenario request of the specification. -/
def addScenarioRequest : MCPRequest :=
  { jsonrpc := "2.0", id := "1", method := "tools/call",
    params :=
      [("name", Json.str "add"),
       ("arguments", Json.obj [("a", Json.num (PyNum.int 2)), ("b", Json.num (PyNum.int 3))])] }

/-- The end-to-end `add` scenario frame as raw decoded JSON. -/
def addScenarioJson : Json :=
  Json.obj
    [("jsonrpc", Json.str "2.0"), ("id", Json.str "1"), ("method", Json.str "tools/call"),
     ("params",
      Json.obj
        [("name", Json.str "add"),
         ("arguments", Json.obj [("a", Json.num (PyNum.int 2)), ("b", Json.num (PyNum.int 3))])])]

/-- A `tools/call` request for `divide` with a zero divisor. -/
def divideZeroRequest : MCPRequest :=
  { jsonrpc := "2.0", id := "3", method := "tools/call",
    params :=
      [("name", Json.str "divide"),
       ("arguments", Json.obj [("a", Json.num (PyNum.int 1)), ("b", Json.num (PyNum.int 0))])] }

/-- Every success value produced by the `try` body of `handle_request`
echoes the request id, and has either no error and a nonempty result
(the success branches) or an error dict and the `{}` default result (the
error branches). -/
theorem handleRequestE_ok_inv {eff : Effects} {req : MCPRequest} {r : MCPResponse}
    (h : handleRequestE eff req = Except.ok r) :
    r.id = req.id ∧
      ((r.error = none ∧ r.result ≠ []) ∨ (∃ e, r.error = some e ∧ r.result = [])) := by
  unfold handleRequestE at h
  split at h
  · cases h
    exact ⟨rfl, Or.inl ⟨rfl, by simp [initResultFields]⟩⟩
  · split at h
    · cases h
      exact ⟨rfl, Or.inl ⟨rfl, by simp⟩⟩
    · split at h
      · rename_i hm
        simp only [] at h
        split at h
        · exact Except.noConfusion h
        · split at h
          · split at h
            · exact Except.noConfusion h
            · cases h
              exact ⟨rfl, Or.inl ⟨rfl, by simp [contentEnvelope]⟩⟩
          · cases h
            exact ⟨rfl, Or.inr ⟨_, rfl, rfl⟩⟩
      · cases h
        exact ⟨rfl, Or.inr ⟨_, rfl, rfl⟩⟩

/-- Truncation toward zero is monotone. -/
theorem pyTruncRat_mono {q q' : Rat} (h : q ≤ q') : pyTruncRat q ≤ pyTruncRat q' := by
  unfold pyTruncRat
  by_cases h1 : q < 0 <;> by_cases h2 : q' < 0 <;> simp [h1, h2]
  · exact Int.ceil_le_ceil h
  · exact le_trans (Int.ceil_le.mpr (by exact_mod_cast h1.le))
      (Int.floor_nonneg.mpr (not_lt.mp h2))
  · exact absurd (lt_of_le_of_lt h h2) h1
  · exact Int.floor_le_floor h

/-- `pyTruncNum` agrees with rational truncation of the numeric value. -/
theorem pyTruncNum_eq (m : PyNum) : pyTruncNum m = pyTruncRat m.toRat := by
  cases m with
  | int i =>
      show i = pyTruncRat (mkRat i 1)
      rw [Rat.mkRat_one]
      unfold pyTruncRat
      split
      · exact (Int.ceil_intCast i).symm
      · exact (Int.floor_intCast i).symm
  | float q => rfl

/-- `randint` on a nonempty range returns a value inside the range. -/
theorem randint_mem {a b : Int} (r : Nat) (h : a ≤ b) :
    ∃ n : Int, randint a b r = Except.ok n ∧ a ≤ n ∧ n ≤ b := by
  refine ⟨a + (r : Int) % (b - a + 1), ?_, ?_, ?_⟩
  · unfold randint
    rw [if_neg (not_lt.mpr h)]
  · have := Int.emod_nonneg (r : Int) (by omega : b - a + 1 ≠ 0)
    omega
  · have := Int.emod_lt_of_pos (r : Int) (by omega : 0 < b - a + 1)
    omega

/-- C1 counterexample: the response to an unknown method is an error
response, yet its serialization still contains a `result` member (the
`{}` field default) alongside the populated `error` member — the claim's
"an error response carries no result member" fails on this concrete
dispatch. -/
theorem error_response_carries_result_member :
    (handleRequest defaultEffects { id := "9", method := "nosuch" }).error.isSome = true ∧
    serializeResponse (handleRequest defaultEffects { id := "9", method := "nosuch" }) =
      Json.obj
        [("jsonrpc", Json.str "2.0"),
         ("id", Json.str "9"),
         ("result", Json.obj []),
         ("error",
          Json.obj [("code", Json.num (PyNum.int (-32601))),
                    ("message", Json.str "Method \x27nosuch\x27 not found")])] :=
  ⟨rfl, rfl⟩

/-- C1 (amended): every response the dispatcher produces serializes with
both members present (`result` defaults to the empty object, `error` to `null`), and
exactly one of them is populated: on success paths `error` is `none` and
`result` is nonempty, and on every error path `error` is set while
`result` stays at its empty default. -/
theorem response_member_discipline (eff : Effects) (req : MCPRequest) :
    ((handleRequest eff req).error = none ∧ (handleRequest eff req).result ≠ []) ∨
      (∃ e, (handleRequest eff req).error = some e ∧ (handleRequest eff req).result = []) := by
  cases h : handleRequestE eff req with
  | ok r =>
      have hi := handleRequestE_ok_inv h
      simp only [handleRequest, h]
      exact hi.2
  | error e =>
      simp only [handleRequest, h]
      exact Or.inr ⟨_, rfl, rfl⟩

/-- C5: every branch of `handle_request` — the three method handlers, the
tool-not-found and method-not-found rejections, and the `except` clause —
echoes the caller-supplied request id verbatim in the response. -/
theorem response_id_echo (eff : Effects) (req : MCPRequest) :
    (handleRequest eff req).id = req.id := by
  cases h : handleRequestE eff req with
  | ok r =>
      have hi := handleRequestE_ok_inv h
      simp only [handleRequest, h]
      exact hi.1
  | error e =>
      simp only [handleRequest, h]
      rfl

/-- C6 counterexample: for the end-to-end `add` scenario the serialized
response is not the three-member object the claim demands — the model
also emits an `error` member (with value `null`), so the claimed "no
other members" fails. -/
theorem add_scenario_extra_member :
    serializeResponse (handleRequest defaultEffects addScenarioRequest) ≠
      Json.obj
        [("jsonrpc", Json.str "2.0"),
         ("id", Json.str "1"),
         ("result",
          Json.obj
            [("content",
              Json.arr [Json.obj [("type", Json.str "text"), ("text", Json.str "5")]])])] :=
  fun h => absurd (congrArg jsonTopLen h) (by decide)

/-- C6 (amended): the end-to-end `add` scenario produces, for every
environment, the claimed envelope — id "1" echoed, the tool result 5
stringified as "5" inside the content envelope — together with the
always-present fourth member `error` serialized as `null`. -/
theorem add_scenario_serialized_response (eff : Effects) :
    serializeResponse (handleRequest eff addScenarioRequest) =
      Json.obj
        [("jsonrpc", Json.str "2.0"),
         ("id", Json.str "1"),
         ("result",
          Json.obj
            [("content",
              Json.arr [Json.obj [("type", Json.str "text"), ("text", Json.str "5")]])]),
         ("error", Json.null)] := rfl

/-- The `tool_name` local of the `tools/call` branch:
`request.params.get("name")`, with an explicit JSON `null` standing for
Python `None` (an absent key and an explicit `null` value are the same
object in Python). -/
def requestToolName (req : MCPRequest) : Json :=
  (List.lookup "name" req.params).getD Json.null

/-- The `arguments` local of the `tools/call` branch:
`request.params.get("arguments", ...)` with the empty dict as default. -/
def requestArguments (req : MCPRequest) : Json :=
  (List.lookup "arguments" req.params).getD (Json.obj [])

/-- C4 counterexample: a `tools/call` whose `name` is a list — a value
certainly absent from the registry — is answered `-32603` (the
`TypeError` of hashing an unhashable dict key, surfaced by the `except`
clause), not the `-32601` the claim requires for every absent name. -/
theorem unhashable_tool_name_internal_error :
    handleRequest defaultEffects
        { id := "7", method := "tools/call", params := [("name", Json.arr [])] } =
      errResp "7" (-32603) "Internal error: unhashable type: \x27list\x27" ∧
    (handleRequest defaultEffects
        { id := "7", method := "tools/call", params := [("name", Json.arr [])] }).error.map
        ErrObj.code ≠ some (-32601) :=
  ⟨rfl, by decide⟩

/-- C4 (amended): within `tools/call`, the dispatcher answers `-32601`
exactly when the membership test succeeds and fails the name (a hashable
name absent from the registry); it answers `-32603` either when the
membership test itself raises (unhashable name) or when a registered
tool's execution raises — in the latter case preserving the fault's
message text behind the "Internal error: " prefix; and a registered
tool's successful value is wrapped in the content envelope.  No fault
escapes `handle_request`: its result type is a total `MCPResponse`. -/
theorem tools_call_error_code_discipline (eff : Effects) (req : MCPRequest)
    (h : req.method = "tools/call") :
    (pyDictContainsKey (requestToolName req) toolNames = Except.ok false →
      handleRequest eff req =
        errResp req.id (-32601)
          ("Tool \x27" ++ pyStr eff (requestToolName req) ++ "\x27 not found")) ∧
    (∀ m, pyDictContainsKey (requestToolName req) toolNames = Except.error m →
      handleRequest eff req = errResp req.id (-32603) ("Internal error: " ++ m)) ∧
    (∀ s, requestToolName req = Json.str s → s ∈ toolNames →
      (∀ v, callTool eff s (requestArguments req) = Except.ok v →
        handleRequest eff req =
          { id := req.id, result := contentEnvelope (pyStr eff v), error := none }) ∧
      (∀ m, callTool eff s (requestArguments req) = Except.error m →
        handleRequest eff req = errResp req.id (-32603) ("Internal error: " ++ m))) := by
  have h1 : ¬req.method = "initialize" := by rw [h]; decide
  have h2 : ¬req.method = "tools/list" := by rw [h]; decide
  refine ⟨?_, ?_, ?_⟩
  · intro hp
    unfold handleRequest handleRequestE requestToolName
    rw [if_neg h1, if_neg h2, if_pos h]
    simp only []
    unfold requestToolName at hp
    rw [hp]
    cases hX : (List.lookup "name" req.params).getD Json.null <;> rfl
  · intro m hp
    unfold handleRequest handleRequestE
    rw [if_neg h1, if_neg h2, if_pos h]
    simp only []
    unfold requestToolName at hp
    rw [hp]
  · intro s hs hmem
    unfold requestToolName at hs
    have hc : toolNames.contains s = true := by
      simpa using hmem
    have hp : pyDictContainsKey ((List.lookup "name" req.params).getD Json.null) toolNames =
        Except.ok true := by
      rw [hs]
      simp only [pyDictContainsKey]
      rw [hc]
    constructor
    · intro v hv
      unfold handleRequest handleRequestE
      rw [if_neg h1, if_neg h2, if_pos h]
      simp only []
      rw [hp, hs]
      simp only []
      unfold requestArguments at hv
      rw [hv]
    · intro m hv
      unfold handleRequest handleRequestE
      rw [if_neg h1, if_neg h2, if_pos h]
      simp only []
      rw [hp, hs]
      simp only []
      unfold requestArguments at hv
      rw [hv]

/-- Witness for `tools_call_error_code_discipline`: instantiated at the
concrete `divide`-by-zero request, where the tool execution raises and the
dispatcher answers `-32603` with the fault's text preserved. -/
theorem tools_call_error_code_discipline_witness :
    handleRequest defaultEffects divideZeroRequest =
      errResp "3" (-32603) "Internal error: Division by zero is not allowed" :=
  ((tools_call_error_code_discipline defaultEffects divideZeroRequest rfl).2.2
      "divide" rfl (by decide)).2 "Division by zero is not allowed" rfl

/-- C2 counterexample: a frame that is valid JSON but violates the
request shape (an empty object, missing `id` and `method`) is answered
with id "unknown" and code `-32603` — the pydantic `ValidationError`
falls into the generic handler, not the `-32700` path the claim
requires for schema violations. -/
theorem schema_violation_answers_internal_error :
    processFrame defaultEffects (Frame.decoded (Json.obj [])) =
      errResp "unknown" (-32603)
        "Internal error: validation error for MCPRequest: id: Field required" ∧
    (processFrame defaultEffects (Frame.decoded (Json.obj []))).error.map ErrObj.code ≠
      some (-32700) :=
  ⟨rfl, by decide⟩

/-- C2 (amended): a syntactically invalid frame is answered with one
response with id "unknown" and code `-32700`; a valid-JSON frame that
violates the request shape is answered with one response with id
"unknown" and code `-32603`; in both cases the receive loop continues —
every frame of a session gets exactly one response, and a valid request
following a malformed frame is answered normally (shown on the concrete
session `[malformed, add-scenario]`). -/
theorem decode_failure_discipline :
    (∀ (eff : Effects) (s : String),
      processFrame eff (Frame.invalid s) = errResp "unknown" (-32700) "Parse error") ∧
    (∀ (eff : Effects) (j : Json) (m : String), decodeMCPRequest j = Except.error m →
      processFrame eff (Frame.decoded j) =
        errResp "unknown" (-32603) ("Internal error: " ++ m)) ∧
    (∀ (eff : Effects) (f : Frame) (rest : List Frame),
      wsSession eff (f :: rest) = processFrame eff f :: wsSession eff rest) ∧
    wsSession defaultEffects [Frame.invalid "\x7bnot json", Frame.decoded addScenarioJson] =
      [errResp "unknown" (-32700) "Parse error",
       { id := "1",
         result :=
           [("content",
             Json.arr [Json.obj [("type", Json.str "text"), ("text", Json.str "5")]])],
         error := none }] := by
  refine ⟨fun eff s => rfl, fun eff j m hm => ?_, fun eff f rest => rfl, rfl⟩
  unfold processFrame
  simp only []
  rw [hm]

/-- Witness for `decode_failure_discipline`: the schema-violation clause
applied to the concrete non-mapping frame `[]`. -/
theorem decode_failure_discipline_witness :
    processFrame defaultEffects (Frame.decoded (Json.arr [])) =
      errResp "unknown" (-32603)
        "Internal error: argument of type MCPRequest initializer must be a mapping" :=
  decode_failure_discipline.2.1 defaultEffects (Json.arr [])
    "argument of type MCPRequest initializer must be a mapping" rfl

/-- C3 counterexample: the stateless HTTP route, asked to run `divide`
with a zero divisor, does not return an `error` member — the `ToolError`
escapes the route uncaught (the framework turns it into a 500), refuting
the claim that every failure case returns an error member. -/
theorem http_route_lets_tool_fault_escape :
    httpCallTool defaultEffects
        [("name", Json.str "divide"),
         ("arguments", Json.obj [("a", Json.num (PyNum.int 1)), ("b", Json.num (PyNum.int 0))])] =
      Except.error "Division by zero is not allowed" := rfl

/-- C3 (amended): the HTTP tool-call route returns a result member when the
named tool is registered and its execution succeeds, returns an error member
only for a name that fails the registry membership test, and lets a fault
raised by the tool's execution escape the route uncaught (no JSON error
envelope). -/
theorem http_call_tool_discipline (eff : Effects) (body : List (String × Json)) :
    (pyDictContainsKey ((List.lookup "name" body).getD Json.null) toolNames =
        Except.ok false →
      httpCallTool eff body =
        Except.ok
          (Json.obj
            [("error",
              Json.str
                ("Tool \x27" ++ pyStr eff ((List.lookup "name" body).getD Json.null) ++
                 "\x27 not found"))])) ∧
    (∀ s, (List.lookup "name" body).getD Json.null = Json.str s → s ∈ toolNames →
      (∀ r, callTool eff s ((List.lookup "arguments" body).getD (Json.obj [])) = Except.ok r →
        httpCallTool eff body = Except.ok (Json.obj [("result", r)])) ∧
      (∀ m, callTool eff s ((List.lookup "arguments" body).getD (Json.obj [])) =
          Except.error m →
        httpCallTool eff body = Except.error m)) := by
  refine ⟨?_, ?_⟩
  · intro hp
    unfold httpCallTool
    simp only []
    rw [hp]
    cases hX : (List.lookup "name" body).getD Json.null <;> rfl
  · intro s hs hmem
    have hc : toolNames.contains s = true := by simpa using hmem
    have hp : pyDictContainsKey ((List.lookup "name" body).getD Json.null) toolNames =
        Except.ok true := by
      rw [hs]
      simp only [pyDictContainsKey]
      rw [hc]
    constructor
    · intro r hr
      unfold httpCallTool
      simp only []
      rw [hp, hs]
      simp only []
      rw [hr]
    · intro m hm
      unfold httpCallTool
      simp only []
      rw [hp, hs]
      simp only []
      rw [hm]

/-- Witness for `http_call_tool_discipline`: the success clause at the
concrete `add` body. -/
theorem http_call_tool_discipline_witness :
    httpCallTool defaultEffects
        [("name", Json.str "add"),
         ("arguments", Json.obj [("a", Json.num (PyNum.int 2)), ("b", Json.num (PyNum.int 3))])] =
      Except.ok (Json.obj [("result", Json.num (PyNum.int 5))]) :=
  ((http_call_tool_discipline defaultEffects
        [("name", Json.str "add"),
         ("arguments", Json.obj [("a", Json.num (PyNum.int 2)), ("b", Json.num (PyNum.int 3))])]).2
      "add" rfl (by decide)).1 (Json.num (PyNum.int 5)) rfl

/-- `int()` of a JSON number is truncation toward zero. -/
theorem pyToInt_num (m : PyNum) : pyToInt (Json.num m) = Except.ok (pyTruncNum m) := by
  cases m <;> rfl

/-- C7 counterexample: `random_number(min=1.5, max=2.5)` (a numeric pair
with `min ≤ max`, both exactly representable floats) returns 1 with zero
entropy, and 1 does not satisfy `min ≤ n` — the inclusive-range claim
fails for fractional bounds, which the source truncates with `int()`
before sampling. -/
theorem random_number_fractional_bounds_violation :
    callTool defaultEffects "random_number"
        (Json.obj [("min", Json.num (PyNum.float (mkRat 3 2))),
                   ("max", Json.num (PyNum.float (mkRat 5 2)))]) =
      Except.ok (Json.num (PyNum.int 1)) ∧
    ¬ ((PyNum.float (mkRat 3 2)).toRat ≤ (1 : Rat)) :=
  ⟨rfl, by decide⟩

/-- C7 (amended): for numeric `min`/`max`, the call errs exactly when
`min > max`; when `min ≤ max` it returns an integer `n` with
`int(min) ≤ n ≤ int(max)` — the bounds truncated toward zero — which
coincides with `min ≤ n ≤ max` for integer bounds but can fall outside
`[min, max]` for fractional bounds. -/
theorem random_number_range_discipline (eff : Effects) (mn mx : PyNum) :
    (mx.toRat < mn.toRat →
      callTool eff "random_number"
          (Json.obj [("min", Json.num mn), ("max", Json.num mx)]) =
        Except.error "Minimum value cannot be greater than maximum value") ∧
    (mn.toRat ≤ mx.toRat →
      ∃ n : Int,
        callTool eff "random_number"
            (Json.obj [("min", Json.num mn), ("max", Json.num mx)]) =
          Except.ok (Json.num (PyNum.int n)) ∧
        pyTruncNum mn ≤ n ∧ n ≤ pyTruncNum mx) := by
  have e1 : callTool eff "random_number"
      (Json.obj [("min", Json.num mn), ("max", Json.num mx)]) =
      (if decide (mx.toRat < mn.toRat) = true then
        Except.error "Minimum value cannot be greater than maximum value"
      else
        Except.bind (pyToInt (Json.num mn)) (fun a =>
          Except.bind (pyToInt (Json.num mx)) (fun b =>
            Except.bind (randint a b eff.rand) (fun n =>
              Except.ok (Json.num (PyNum.int n)))))) := rfl
  constructor
  · intro hlt
    rw [e1, if_pos (decide_eq_true hlt)]
  · intro hle
    have hngt : ¬(decide (mx.toRat < mn.toRat) = true) := by
      simp only [decide_eq_true_eq]
      exact not_lt.mpr hle
    have hab : pyTruncNum mn ≤ pyTruncNum mx := by
      rw [pyTruncNum_eq, pyTruncNum_eq]
      exact pyTruncRat_mono hle
    obtain ⟨n, hr, hn1, hn2⟩ := randint_mem eff.rand hab
    refine ⟨n, ?_, hn1, hn2⟩
    rw [e1, if_neg hngt, pyToInt_num, pyToInt_num]
    simp only [Except.bind]
    rw [hr]

/-- Witness for `random_number_range_discipline`: integer bounds 2 and 5
give an integer in `[2, 5]`. -/
theorem random_number_range_discipline_witness :
    ∃ n : Int,
      callTool defaultEffects "random_number"
          (Json.obj [("min", Json.num (PyNum.int 2)), ("max", Json.num (PyNum.int 5))]) =
        Except.ok (Json.num (PyNum.int n)) ∧
      (2 : Int) ≤ n ∧ n ≤ 5 :=
  (random_number_range_discipline defaultEffects (PyNum.int 2) (PyNum.int 5)).2 (by decide)

/-- C8 counterexample: `validate_url` with a non-string input raises a
`TypeError` (from `pattern.match`), refuting "for every input ... never
raises"; the dispatcher would surface it as `-32603`. -/
theorem validate_url_nonstring_raises :
    callTool defaultEffects "validate_url" (Json.obj [("url", Json.num (PyNum.int 123))]) =
      Except.error "expected string or bytes-like object" := rfl

/-- C8 (amended): for every string input `validate_url` returns a boolean
and never raises, and the boolean is exactly the match of the source's
http/https URL pattern (scheme, then host or IPv4 or localhost, then
optional port, then optional path or query, matched case-insensitively);
the missing-argument default is the empty string, which does not match.
Concrete checks exercise the grammar: positives with a domain, uppercase
letters, localhost with port/path/query, and an IP with a trailing slash;
negatives for a non-http scheme, a missing host, a one-letter TLD, an
embedded space and a bare domain without scheme. -/
theorem validate_url_string_discipline :
    (∀ (eff : Effects) (s : String),
      callTool eff "validate_url" (Json.obj [("url", Json.str s)]) =
        Except.ok (Json.bool (urlPatternMatch s))) ∧
    (∀ eff : Effects,
      callTool eff "validate_url" (Json.obj []) = Except.ok (Json.bool false)) ∧
    urlPatternMatch "http://example.com" = true ∧
    urlPatternMatch "HTTP://EXAMPLE.COM" = true ∧
    urlPatternMatch "https://localhost:8000/path?q=1" = true ∧
    urlPatternMatch "http://192.168.0.1/" = true ∧
    urlPatternMatch "ftp://example.com" = false ∧
    urlPatternMatch "http://" = false ∧
    urlPatternMatch "http://a.b" = false ∧
    urlPatternMatch "http://example.com/a b" = false ∧
    urlPatternMatch "example.com" = false :=
  ⟨fun eff s => rfl, fun eff => rfl, by decide, by decide, by decide, by decide,
   by decide, by decide, by decide, by decide, by decide⟩

/-- C9 counterexample: `divide` called with an empty argument mapping
does not succeed — both defaults are 0 and the zero-divisor guard raises
— so the claim that every registered pure tool succeeds on empty arguments fails. -/
theorem divide_empty_arguments_fails :
    callTool defaultEffects "divide" (Json.obj []) =
      Except.error "Division by zero is not allowed" := rfl

/-- C9 (amended): every tool binding treats every argument — including
ones its advertised schema declares required — as optional with a
built-in default: on an empty argument mapping no tool fails with a
missing-argument error; every computational tool except `divide` succeeds
on its defaults (`add`/`subtract`/`multiply` give 0, `power` gives 1,
`echo` and the string tools give the empty string or 0, `sqrt` and
`random_number` succeed, the environment-backed tools succeed), while
`divide` fails — but with its domain zero-divisor error, not a
missing-argument error. -/
theorem empty_arguments_default_behaviour (eff : Effects) :
    callTool eff "echo" (Json.obj []) = Except.ok (Json.str "") ∧
    callTool eff "add" (Json.obj []) = Except.ok (Json.num (PyNum.int 0)) ∧
    callTool eff "subtract" (Json.obj []) = Except.ok (Json.num (PyNum.int 0)) ∧
    callTool eff "multiply" (Json.obj []) = Except.ok (Json.num (PyNum.int 0)) ∧
    callTool eff "power" (Json.obj []) = Except.ok (Json.num (PyNum.int 1)) ∧
    isOkE (callTool eff "sqrt" (Json.obj [])) = true ∧
    callTool eff "uppercase" (Json.obj []) = Except.ok (Json.str "") ∧
    callTool eff "lowercase" (Json.obj []) = Except.ok (Json.str "") ∧
    callTool eff "reverse_string" (Json.obj []) = Except.ok (Json.str "") ∧
    callTool eff "string_length" (Json.obj []) = Except.ok (Json.num (PyNum.int 0)) ∧
    isOkE (callTool eff "random_number" (Json.obj [])) = true ∧
    callTool eff "get_time" (Json.obj []) = Except.ok (Json.str eff.now) ∧
    callTool eff "generate_uuid" (Json.obj []) = Except.ok (Json.str eff.uuid) ∧
    callTool eff "hash_md5" (Json.obj []) = Except.ok (Json.str (eff.md5 "")) ∧
    callTool eff "hash_sha256" (Json.obj []) = Except.ok (Json.str (eff.sha256 "")) ∧
    callTool eff "validate_url" (Json.obj []) = Except.ok (Json.bool false) ∧
    callTool eff "divide" (Json.obj []) = Except.error "Division by zero is not allowed" :=
  ⟨rfl, rfl, rfl, rfl, rfl, rfl, rfl, rfl, rfl, rfl, rfl, rfl, rfl, rfl, rfl, rfl, rfl⟩

/-- C10: `disconnect` checks membership before `remove`, so it never
raises — removing a registered websocket erases its first occurrence and
removing an absent one (a second disconnect included) is a no-op — and
over any sequence of lifecycle events started from the empty registry the
size the liveness interface reports never goes below zero. -/
theorem connection_registry_safety :
    (∀ (l : List Nat) (ws : Nat),
      cmDisconnect l ws = Except.ok (if ws ∈ l then l.erase ws else l)) ∧
    (∀ ops : List ConnOp,
      healthCheck (runConnOps ops []) =
        Json.obj
          [("status", Json.str "healthy"),
           ("active_connections",
            Json.num (PyNum.int ((runConnOps ops []).length : Int)))] ∧
      0 ≤ ((runConnOps ops []).length : Int)) := by
  constructor
  · intro l ws
    by_cases h : ws ∈ l
    · simp [cmDisconnect, pyListRemove, h]
    · simp [cmDisconnect, h]
  · intro ops
    exact ⟨rfl, Int.natCast_nonneg _⟩
